import Mathlib

/-!
Verification of the filtering and derived-metrics engine of the hotel-bookings
dashboard (`app.py`).

The dashboard loads a pandas DataFrame of booking records, filters it by a
sidebar-selected filter specification (lines 40-46 of `app.py`), and computes
KPIs and grouped aggregations from the filtered frame.  This file gives a
shallow embedding of that engine: a DataFrame is a `List Record` (rows in
order), boolean-mask filtering is `List.filter`, and the pandas reductions
(`mean`, `sum`, `value_counts`, `groupby`, `reindex`) are translated
operation by operation.  Pandas floating-point NaN (as produced by the mean
of an empty series) is modelled by `Option ℚ` with `none` playing the role
of NaN; all other numeric data is exact (`ℚ`, `ℤ`, `ℕ`), which is faithful
because the claims under study concern order, emptiness and algebraic shape
rather than rounding.
-/

namespace HotelBookings

/-- One row of the bookings DataFrame, with the columns the dashboard reads.
Numeric columns that the source treats as continuous (`adr`, `agent`) are
`ℚ`; count-like columns are `ℕ`.  `is_canceled` is the 0/1 integer column of
the dataset.  `revenue` models the derived `"revenue"` column: it is absent
(`none`) in the loaded frame and is assigned by line 196 of `app.py`. -/
structure Record where
  hotel : String
  arrival_date_year : Int
  arrival_date_month : String
  customer_type : String
  adr : ℚ
  is_canceled : Nat
  stays_in_week_nights : Nat
  stays_in_weekend_nights : Nat
  country : String
  agent : ℚ
  reserved_room_type : String
  assigned_room_type : String
  revenue : Option ℚ
deriving DecidableEq

/-- The sidebar filter state (lines 24-37 of `app.py`): four multiselect
lists and the two ends of the ADR slider. -/
structure FilterSpec where
  hotels : List String
  years : List Int
  months : List String
  customer_types : List String
  adr_lo : ℚ
  adr_hi : ℚ
deriving DecidableEq

/-- The row predicate of lines 41-45 of `app.py`: the conjunction (`&` of
boolean masks) of four `isin` membership tests and the inclusive
`between(adr_range[0], adr_range[1])` range test. -/
def keep (s : FilterSpec) (r : Record) : Bool :=
  decide (r.hotel ∈ s.hotels) &&
  decide (r.arrival_date_year ∈ s.years) &&
  decide (r.arrival_date_month ∈ s.months) &&
  decide (r.customer_type ∈ s.customer_types) &&
  (decide (s.adr_lo ≤ r.adr) && decide (r.adr ≤ s.adr_hi))

/-- Lines 40-46 of `app.py`: `filtered_df = df[mask]`.  Boolean-mask row
selection keeps exactly the rows whose mask entry is true, in their original
order, which is `List.filter` on the row list. -/
def applyFilter (df : List Record) (s : FilterSpec) : List Record :=
  df.filter (keep s)

/-- A sample booking row used to instantiate universally quantified theorems
at concrete inputs. -/
def exRecord : Record :=
  { hotel := "Resort Hotel", arrival_date_year := 2021,
    arrival_date_month := "July", customer_type := "Transient",
    adr := 100, is_canceled := 0,
    stays_in_week_nights := 2, stays_in_weekend_nights := 1,
    country := "PRT", agent := 9,
    reserved_room_type := "A", assigned_room_type := "A", revenue := none }

/-- A sample one-row table. -/
def exTable : List Record := [exRecord]

/-- C1: a record is retained by the filter iff it is a source record that
satisfies all five predicates (hotel, year and month set membership,
customer-type set membership, and the inclusive ADR range), and the filtered
table is never longer than the source table. -/
theorem c1_filter_conjunction (df : List Record) (s : FilterSpec) :
    (∀ r : Record, r ∈ applyFilter df s ↔
      r ∈ df ∧ r.hotel ∈ s.hotels ∧ r.arrival_date_year ∈ s.years ∧
      r.arrival_date_month ∈ s.months ∧ r.customer_type ∈ s.customer_types ∧
      s.adr_lo ≤ r.adr ∧ r.adr ≤ s.adr_hi) ∧
    (applyFilter df s).length ≤ df.length := by
  constructor
  · intro r
    simp [applyFilter, keep, List.mem_filter, and_assoc]
  · exact List.length_filter_le _ _

/-- C9: the filter is stable: the filtered table is a sublist of the source
table, i.e. the retained records appear in the same relative order as in the
source. -/
theorem c9_filter_stable (df : List Record) (s : FilterSpec) :
    List.Sublist (applyFilter df s) df := by
  unfold applyFilter
  exact List.filter_sublist df

/-- C5: an empty selection set matches nothing: if any of the four
multiselect lists of the spec is empty, the filtered result is the empty
table (pandas `isin([])` is false on every row). -/
theorem c5_empty_selection_matches_nothing (df : List Record) (s : FilterSpec)
    (h : s.hotels = [] ∨ s.years = [] ∨ s.months = [] ∨ s.customer_types = []) :
    applyFilter df s = [] := by
  apply List.filter_eq_nil_iff.mpr
  intro r _
  rcases h with h | h | h | h <;> simp [keep, h]

/-- Witness for C5 at a concrete non-empty table and a spec whose hotel set
is empty. -/
theorem c5_empty_selection_matches_nothing_witness :
    applyFilter exTable
      { hotels := [], years := [2021], months := ["July"],
        customer_types := ["Transient"], adr_lo := 0, adr_hi := 500 } = []
      ∧ exTable ≠ [] :=
  ⟨c5_empty_selection_matches_nothing exTable _ (Or.inl rfl), by decide⟩

/-- C6: an inverted ADR range (`min > max`) filters out every record, since
`between` requires `adr_lo ≤ adr ≤ adr_hi`; the result is the empty table
and no error is possible (the filter is a total function). -/
theorem c6_inverted_range_empty (df : List Record) (s : FilterSpec)
    (h : s.adr_hi < s.adr_lo) : applyFilter df s = [] := by
  apply List.filter_eq_nil_iff.mpr
  intro r _ hk
  simp only [keep, Bool.and_eq_true, decide_eq_true_eq] at hk
  exact absurd (hk.2.1.trans hk.2.2) (not_le.mpr h)

/-- Witness for C6 at a concrete table and the inverted range `[200, 50]`. -/
theorem c6_inverted_range_empty_witness :
    applyFilter exTable
      { hotels := ["Resort Hotel"], years := [2021], months := ["July"],
        customer_types := ["Transient"], adr_lo := 200, adr_hi := 50 } = [] :=
  c6_inverted_range_empty exTable _ (by decide)

/-- Pandas `Series.mean`: on an empty series the result is NaN (modelled
`none`); on a non-empty series it is the sum divided by the count. -/
def pmean (xs : List ℚ) : Option ℚ :=
  if xs.isEmpty then none else some (xs.sum / xs.length)

/-- Line 65 of `app.py`: `filtered_df['adr'].mean()`, formatted straight
into the "Avg. ADR" KPI string with no emptiness guard. -/
def average_adr (df : List Record) : Option ℚ :=
  pmean (df.map (·.adr))

/-- Line 67 of `app.py`: `filtered_df['is_canceled'].mean()` (the `* 100`
and percent sign are applied in the display string). -/
def cancellation_rate (df : List Record) : Option ℚ :=
  pmean (df.map (fun r => (r.is_canceled : ℚ)))

/-- Line 171 of `app.py`: the mean of the boolean series
`assigned_room_type != reserved_room_type` (true as 1, false as 0), times
100.  NaN times 100 is NaN, hence `Option.map`. -/
def upgrade_rate (df : List Record) : Option ℚ :=
  (pmean (df.map (fun r =>
    if r.assigned_room_type = r.reserved_room_type then (0 : ℚ) else 1))).map (· * 100)

/-- C2: refuting evaluation.  The claim states that `average_adr`,
`cancellation_rate` and `rate_of_mismatch` (the upgrade rate) produce an
explicit defined no-data result on the empty table.  The code has no
emptiness guard: each metric is a bare pandas mean, which on the empty
filtered frame is NaN (modelled `none`) and is formatted into the displayed
KPI strings as "nan". -/
theorem c2_empty_table_metrics_yield_nan :
    average_adr [] = none ∧ cancellation_rate [] = none ∧ upgrade_rate [] = none :=
  ⟨rfl, rfl, rfl⟩

/-- Line 66 of `app.py`, the "Total Revenue" KPI: the elementwise product of
the `adr` column with the elementwise sum of the two stay-night columns,
then the pandas `sum` reduction (which is 0 on an empty series). -/
def total_revenue (df : List Record) : ℚ :=
  (List.zipWith (· * ·) (df.map (·.adr))
    (List.zipWith (· + ·)
      (df.map (fun r => (r.stays_in_week_nights : ℚ)))
      (df.map (fun r => (r.stays_in_weekend_nights : ℚ))))).sum

/-- Modelled from the spec's words, for the refinement comparison of C7:
the sum over all records of `adr × (stays_in_week_nights +
stays_in_weekend_nights)`. -/
def spec_total_revenue (df : List Record) : ℚ :=
  (df.map (fun r =>
    r.adr * ((r.stays_in_week_nights : ℚ) + (r.stays_in_weekend_nights : ℚ)))).sum

/-- C7: the columnwise revenue computation of the code equals the spec's
per-record sum of `adr × (week nights + weekend nights)`, and on the empty
table it is exactly 0. -/
theorem c7_total_revenue_sum :
    (∀ df : List Record, total_revenue df = spec_total_revenue df) ∧
    total_revenue [] = 0 := by
  constructor
  · intro df
    induction df with
    | nil => rfl
    | cons r t ih =>
      simp only [total_revenue, spec_total_revenue, List.map_cons,
        List.zipWith_cons_cons, List.sum_cons] at ih ⊢
      rw [ih]
  · rfl

/-- Pandas `Series.unique`: the distinct values of a column in order of
first occurrence.  `List.dedup` keeps the last occurrence of each duplicate,
so deduplicating the reversed list and reversing back keeps the first
occurrences in their original order. -/
def uniqueVals {α : Type} [DecidableEq α] (l : List α) : List α :=
  l.reverse.dedup.reverse

/-- Pandas `Series.min`: NaN (`none`) on an empty series, else the least
element. -/
def seriesMin : List ℚ → Option ℚ
  | [] => none
  | x :: xs => some (xs.foldl min x)

/-- Pandas `Series.max`: NaN (`none`) on an empty series, else the greatest
element. -/
def seriesMax : List ℚ → Option ℚ
  | [] => none
  | x :: xs => some (xs.foldl max x)

/-- Python `int()` on a rational value: truncation toward zero. -/
def pyInt (q : ℚ) : ℤ :=
  if 0 ≤ q then ⌊q⌋ else ⌈q⌉

/-- The sidebar's default filter specification (lines 24-37 of `app.py`):
each multiselect defaults to all distinct values of its column (`unique()`,
the year list additionally run through `sorted()`), and the ADR slider
defaults to its full range `(int(df['adr'].min()), int(df['adr'].max()))`.
The `Option.elim` base case 0 is unreachable for the dashboard, whose loaded
table is non-empty (Python `int(nan)` would raise there). -/
def defaultSpec (df : List Record) : FilterSpec :=
  { hotels := uniqueVals (df.map (·.hotel)),
    years := List.insertionSort (· ≤ ·) (uniqueVals (df.map (·.arrival_date_year))),
    months := uniqueVals (df.map (·.arrival_date_month)),
    customer_types := uniqueVals (df.map (·.customer_type)),
    adr_lo := (((seriesMin (df.map (·.adr))).elim 0 pyInt : ℤ) : ℚ),
    adr_hi := (((seriesMax (df.map (·.adr))).elim 0 pyInt : ℤ) : ℚ) }

/-- C10: the slider's upper bound is `int(max_adr)`, the dataset maximum
truncated to an integer, so with the full default range selected any record
whose `adr` exceeds that truncated maximum is excluded from the filtered
result. -/
theorem c10_default_range_truncation (df : List Record) (r : Record) (q : ℚ)
    (_hmem : r ∈ df) (hmax : seriesMax (df.map (·.adr)) = some q)
    (hgt : ((pyInt q : ℤ) : ℚ) < r.adr) :
    (defaultSpec df).adr_hi = ((pyInt q : ℤ) : ℚ) ∧
    r ∉ applyFilter df (defaultSpec df) := by
  have hhi : (defaultSpec df).adr_hi = ((pyInt q : ℤ) : ℚ) := by
    simp [defaultSpec, hmax]
  refine ⟨hhi, fun hr => ?_⟩
  have hk := (List.mem_filter.mp hr).2
  simp only [keep, Bool.and_eq_true, decide_eq_true_eq] at hk
  have hle : r.adr ≤ (defaultSpec df).adr_hi := hk.2.2
  rw [hhi] at hle
  exact absurd hle (not_le.mpr hgt)

/-- A booking row with the fractional rate 510.5, above the truncated
default slider maximum. -/
def exRecordHalf : Record :=
  { exRecord with adr := mkRat 1021 2 }

/-- A two-row table whose maximum ADR is fractional. -/
def exC10 : List Record := [exRecord, exRecordHalf]

/-- Witness for C10: in a table with ADRs 100 and 510.5, the default slider
maximum truncates to 510 and the 510.5-rate record is excluded from the
default (widest) filter. -/
theorem c10_default_range_truncation_witness :
    (defaultSpec exC10).adr_hi = ((pyInt (mkRat 1021 2) : ℤ) : ℚ) ∧
    exRecordHalf ∉ applyFilter exC10 (defaultSpec exC10) :=
  c10_default_range_truncation exC10 exRecordHalf (mkRat 1021 2)
    (by decide) (by decide) (by decide)

/-- Line 196 of `app.py`:
`filtered_df["revenue"] = filtered_df["adr"] * (weeks + weekend_nights)`.
The assignment adds a `revenue` column to the filtered frame in place (every
row gains the derived value); it is the frame-update step of the revenue
aggregation. -/
def addRevenueColumn (df : List Record) : List Record :=
  df.map (fun r =>
    let rev : ℚ := r.adr * ((r.stays_in_week_nights : ℚ) + (r.stays_in_weekend_nights : ℚ))
    { r with revenue := some rev })

/-- Forgets the derived `revenue` column of a row, leaving the loaded
columns. -/
def eraseRevenue (r : Record) : Record :=
  { r with revenue := none }

/-- C3: refuting evaluation.  The claim states that no metrics computation
mutates the table it receives; the revenue aggregation (line 196) does: it
assigns a new `revenue` column on the filtered table, so the table after the
assignment differs from the table before it. -/
theorem c3_revenue_assignment_mutates :
    addRevenueColumn [exRecord] ≠ [exRecord] := by decide

/-- C3 as amended: the column assignment of line 196 is the only mutation in
the pipeline, and it only adds the derived `revenue` column: every loaded
column of every row is unchanged, and each row's new `revenue` value is
`adr × (week nights + weekend nights)`.  (The source table `df` is a pure
input of the embedding and is untouched; pandas boolean-mask selection
copies, so the in-place column assignment on `filtered_df` does not reach
`df`.) -/
theorem c3_revenue_assignment_only_adds_column (df : List Record) :
    (addRevenueColumn df).map eraseRevenue = df.map eraseRevenue ∧
    (addRevenueColumn df).map (·.revenue) =
      df.map (fun r =>
        some (r.adr * ((r.stays_in_week_nights : ℚ) + (r.stays_in_weekend_nights : ℚ)))) := by
  constructor <;>
    simp [addRevenueColumn, eraseRevenue, List.map_map, Function.comp]

/-- Code-point comparison of character lists: the lexicographic order Python
and pandas use on strings. -/
def charListLt : List Char → List Char → Bool
  | [], [] => false
  | [], _ :: _ => true
  | _ :: _, [] => false
  | a :: as, b :: bs =>
    if a.val < b.val then true
    else if b.val < a.val then false
    else charListLt as bs

/-- Code-point lexicographic order on strings (Python `<` on `str`). -/
def strLt (a b : String) : Bool :=
  charListLt a.data b.data

/-- The ascending order pandas `groupby(['arrival_date_year',
'arrival_date_month'])` sorts its group keys by: year first, then the month
NAME as a string, lexicographically. -/
def yearMonthLE (a b : Int × String) : Prop :=
  a.1 < b.1 ∨ (a.1 = b.1 ∧ (strLt a.2 b.2 || a.2 == b.2) = true)

instance : DecidableRel yearMonthLE := fun x y =>
  inferInstanceAs (Decidable (x.1 < y.1 ∨ (x.1 = y.1 ∧ (strLt x.2 y.2 || x.2 == y.2) = true)))

/-- Line 107 of `app.py`:
`filtered_df.groupby(['arrival_date_year','arrival_date_month'])['adr'].mean().reset_index()`.
Pandas `groupby` (default `sort=True`) emits one row per distinct key pair,
sorted ascending — lexicographically by month name, not in calendar order —
with the group's mean ADR. -/
def monthly_adr (df : List Record) : List ((Int × String) × Option ℚ) :=
  (List.insertionSort yearMonthLE
      (uniqueVals (df.map (fun r => (r.arrival_date_year, r.arrival_date_month))))).map
    (fun k => (k,
      pmean ((df.filter (fun r =>
        decide ((r.arrival_date_year, r.arrival_date_month) = k))).map (·.adr))))

/-- Line 108 of `app.py`: the fixed calendar-month name list `order`. -/
def order : List String :=
  ["January", "February", "March", "April", "May", "June", "July",
   "August", "September", "October", "November", "December"]

/-- Line 187 of `app.py`:
`filtered_df.groupby(['arrival_date_month'])['is_canceled'].mean().reindex(order)`.
After `reindex(order)` the result has exactly the twelve calendar months as
keys, in calendar order; a month with no rows carries NaN, which coincides
with the NaN (`none`) that `pmean` gives on the empty group. -/
def month_cancel (df : List Record) : List (String × Option ℚ) :=
  order.map (fun m => (m,
    pmean ((df.filter (fun r => decide (r.arrival_date_month = m))).map
      (fun r => (r.is_canceled : ℚ)))))

/-- Line 197 of `app.py`:
`filtered_df.groupby('arrival_date_month')["revenue"].sum().reindex(order)`,
run after the line-196 column assignment.  Months present in the frame get
the sum of their `revenue` column (`getD 0` reads the column that line 196
just assigned); months absent from the groups are NaN after the reindex. -/
def revenue_month (df : List Record) : List (String × Option ℚ) :=
  order.map (fun m =>
    let g := df.filter (fun r => decide (r.arrival_date_month = m))
    (m, if g.isEmpty then none else some ((g.map (fun r => r.revenue.getD 0)).sum)))

/-- A March booking row. -/
def exMarch : Record :=
  { exRecord with arrival_date_month := "March", adr := 80 }

/-- An April booking row, arriving after the March row. -/
def exApril : Record :=
  { exRecord with arrival_date_month := "April", adr := 120 }

/-- A two-row table with months March and April of the same year. -/
def exC4 : List Record := [exMarch, exApril]

/-- C4: refuting evaluation.  The claim states that every month-grouped
aggregation is re-ordered into calendar order.  `month_cancel` (line 187)
and `revenue_month` (line 197) are, via `reindex(order)`; but `monthly_adr`
(line 107) is left in the pandas groupby sort order — lexicographic by month
name — so on a March-and-April table its keys come out April before March,
the reverse of calendar order (the chart then mislabels the x-axis with the
calendar names). -/
theorem c4_monthly_adr_not_calendar_ordered :
    (monthly_adr exC4).map (fun p => p.1.2) = ["April", "March"] ∧
    List.indexOf "March" order < List.indexOf "April" order ∧
    (month_cancel exC4).map Prod.fst = order ∧
    (revenue_month (addRevenueColumn exC4)).map Prod.fst = order := by
  refine ⟨by decide, by decide, by decide, by decide⟩

/-- Membership in the first-occurrence deduplication is membership in the
column. -/
theorem mem_uniqueVals {α : Type} [DecidableEq α] {x : α} {l : List α} :
    x ∈ uniqueVals l ↔ x ∈ l := by
  simp [uniqueVals]

/-- The first-occurrence deduplication has no duplicates. -/
theorem nodup_uniqueVals {α : Type} [DecidableEq α] (l : List α) :
    (uniqueVals l).Nodup := by
  simp only [uniqueVals, List.nodup_reverse]
  exact List.nodup_dedup _

/-- The hashtable stage of pandas `value_counts` on a column `l`: each
distinct value paired with its occurrence count, in first-occurrence
order. -/
def vcEntries {α : Type} [DecidableEq α] (l : List α) : List (α × Nat) :=
  (uniqueVals l).map (fun v => (v, l.count v))

/-- The order the sort stage of `value_counts` arranges entries into:
descending by count, entries of equal count by first occurrence in the
column (the deterministic stable descending sort of pandas). -/
def vcRel {α : Type} [DecidableEq α] (l : List α) (a b : α × Nat) : Prop :=
  b.2 < a.2 ∨ (a.2 = b.2 ∧ List.indexOf a.1 l ≤ List.indexOf b.1 l)

instance {α : Type} [DecidableEq α] (l : List α) : DecidableRel (vcRel l) := fun x y =>
  inferInstanceAs
    (Decidable (y.2 < x.2 ∨ (x.2 = y.2 ∧ List.indexOf x.1 l ≤ List.indexOf y.1 l)))

instance {α : Type} [DecidableEq α] (l : List α) : IsTotal (α × Nat) (vcRel l) := by
  constructor
  intro a b
  rcases Nat.lt_trichotomy a.2 b.2 with h | h | h
  · exact Or.inr (Or.inl h)
  · rcases Nat.le_total (List.indexOf a.1 l) (List.indexOf b.1 l) with hle | hle
    · exact Or.inl (Or.inr ⟨h, hle⟩)
    · exact Or.inr (Or.inr ⟨h.symm, hle⟩)
  · exact Or.inl (Or.inl h)

instance {α : Type} [DecidableEq α] (l : List α) : IsTrans (α × Nat) (vcRel l) := by
  constructor
  intro a b c hab hbc
  rcases hab with hab | ⟨hab1, hab2⟩ <;> rcases hbc with hbc | ⟨hbc1, hbc2⟩
  · exact Or.inl (by omega)
  · exact Or.inl (by omega)
  · exact Or.inl (by omega)
  · exact Or.inr ⟨hab1.trans hbc1, hab2.trans hbc2⟩

/-- Pandas `Series.value_counts()` on a column `l`: the distinct values with
their counts, sorted descending by count. -/
def value_counts {α : Type} [DecidableEq α] (l : List α) : List (α × Nat) :=
  List.insertionSort (vcRel l) (vcEntries l)

/-- Pandas `value_counts().head(n)`: the first `n` rows of the sorted counts
(all of them when there are fewer than `n`). -/
def top_n_by_count {α : Type} [DecidableEq α] (l : List α) (n : Nat) : List (α × Nat) :=
  (value_counts l).take n

/-- Line 84 of `app.py`: `filtered_df['country'].value_counts().head(10)`. -/
def top_countries (df : List Record) : List (String × Nat) :=
  top_n_by_count (df.map (·.country)) 10

/-- Line 238 of `app.py`: `filtered_df['agent'].value_counts().head(10)`. -/
def top_agents (df : List Record) : List (ℚ × Nat) :=
  top_n_by_count (df.map (·.agent)) 10

/-- C8: refuting evaluation.  The claim states the result is truncated to
exactly `n` entries; but `head(10)` on a table with a single distinct
country yields one entry, not ten. -/
theorem c8_top_countries_not_exactly_ten :
    (top_countries exTable).length ≠ 10 := by decide

/-- C8 as amended: `top_n_by_count` pairs each distinct column value with
its exact occurrence count, returns them sorted descending by count with
ties broken by first-occurrence order (stable), and truncates to at most
`n` entries — exactly `min n (number of distinct values)`. -/
theorem c8_top_n_sorted_stable_truncated {α : Type} [DecidableEq α]
    (l : List α) (n : Nat) :
    (top_n_by_count l n).length = min n (uniqueVals l).length ∧
    (∀ p ∈ top_n_by_count l n, p.1 ∈ l ∧ p.2 = l.count p.1) ∧
    List.Pairwise (fun p q : α × Nat =>
      q.2 < p.2 ∨ (p.2 = q.2 ∧ List.indexOf p.1 l < List.indexOf q.1 l))
      (top_n_by_count l n) := by
  have hperm := List.perm_insertionSort (vcRel l) (vcEntries l)
  have hmem : ∀ p ∈ top_n_by_count l n, p.1 ∈ l ∧ p.2 = l.count p.1 := by
    intro p hp
    have hp' := hperm.subset (List.take_subset n (value_counts l) hp)
    simp only [vcEntries, List.mem_map] at hp'
    obtain ⟨v, hv, rfl⟩ := hp'
    exact ⟨mem_uniqueVals.mp hv, rfl⟩
  refine ⟨?_, hmem, ?_⟩
  · unfold top_n_by_count value_counts
    rw [List.length_take, hperm.length_eq]
    simp [vcEntries]
  · have hsorted : List.Pairwise (vcRel l) (value_counts l) :=
      List.sorted_insertionSort (vcRel l) (vcEntries l)
    have hne : List.Pairwise (fun p q : α × Nat => p.1 ≠ q.1) (vcEntries l) := by
      unfold vcEntries
      rw [List.pairwise_map]
      exact nodup_uniqueVals l
    have hne' : List.Pairwise (fun p q : α × Nat => p.1 ≠ q.1) (value_counts l) :=
      (List.Perm.pairwise_iff (fun h => h.symm) hperm).mpr hne
    have hcomb := List.Pairwise.sublist (List.take_sublist n (value_counts l))
      (hsorted.and hne')
    refine List.Pairwise.imp_of_mem ?_ hcomb
    intro p q hp hq hpq
    rcases hpq.1 with hlt | hs
    · exact Or.inl hlt
    · refine Or.inr ⟨hs.1, lt_of_le_of_ne hs.2 (fun heq => hpq.2 ?_)⟩
      exact (List.indexOf_inj (hmem p hp).1 (hmem q hq).1).mp heq

end HotelBookings
